import Mathlib

/-!
Shallow embedding of the KHRIV recipe-chatbot core (`src/chatbot.py`) and
verification of the frozen claims about it.

Python strings are modelled as lists of characters (`Str`); Python dicts with
a fixed key set are modelled as structures with `Option` fields (an absent key
is `none`); code that can raise is modelled in `Except`, and the enclosing
`try/except` handlers are explicit `match`es on the `Except` result.
-/

namespace KHRIV

/-- Python strings, modelled as character lists. -/
abbrev Str := List Char

/-- `str.lower()` (ASCII, which covers every keyword the code compares). -/
def lowerStr (s : Str) : Str := s.map Char.toLower

/-- Characters stripped by Python `str.strip()` / split by `str.split()`. -/
def isPySpace (c : Char) : Bool :=
  c == ' ' || c == '\t' || c == '\n' || c == '\r' || c == '\x0b' || c == '\x0c'

/-- Python `str.strip()`: remove leading and trailing whitespace. -/
def pyStrip (s : Str) : Str :=
  ((s.dropWhile isPySpace).reverse.dropWhile isPySpace).reverse

/-- Python `pat in s`: substring containment. -/
def isSubstr (pat : Str) : Str → Bool
  | [] => pat.isEmpty
  | c :: rest => pat.isPrefixOf (c :: rest) || isSubstr pat rest

/-- Number of start positions of `s` at which `pat` occurs (substring count). -/
def countSubstr (pat : Str) : Str → Nat
  | [] => if pat.isEmpty then 1 else 0
  | c :: rest => (if pat.isPrefixOf (c :: rest) then 1 else 0) + countSubstr pat rest

/-- Helper for `pySplitSep`; the fuel is at least `s.length + 1`, so it
never runs out on the strings the split is actually applied to. -/
def splitSepAux (sep : Str) : Nat → Str → Str → List Str
  | 0, acc, s => [acc.reverse ++ s]
  | fuel + 1, acc, s =>
    match s with
    | [] => [acc.reverse]
    | c :: rest =>
      if !sep.isEmpty && sep.isPrefixOf (c :: rest) then
        acc.reverse :: splitSepAux sep fuel [] ((c :: rest).drop sep.length)
      else
        splitSepAux sep fuel (c :: acc) rest

/-- Python `s.split(sep)` for a non-empty separator `sep`: split on
left-to-right non-overlapping occurrences, keeping empty parts. -/
def pySplitSep (sep s : Str) : List Str := splitSepAux sep (s.length + 1) [] s

/-- Helper for `pyRemoveAll`, fueled like `splitSepAux`. -/
def removeAllAux (pat : Str) : Nat → Str → Str
  | 0, s => s
  | fuel + 1, s =>
    match s with
    | [] => []
    | c :: rest =>
      if !pat.isEmpty && pat.isPrefixOf (c :: rest) then
        removeAllAux pat fuel ((c :: rest).drop pat.length)
      else
        c :: removeAllAux pat fuel rest

/-- Python `s.replace(pat, '')`: delete all left-to-right non-overlapping
occurrences of `pat`. -/
def pyRemoveAll (pat s : Str) : Str := removeAllAux pat (s.length + 1) s

/-- Helper for `wsSplit`: `cur` holds the current word, reversed. -/
def wsSplitAux (cur : Str) : Str → List Str
  | [] => if cur.isEmpty then [] else [cur.reverse]
  | c :: rest =>
    if isPySpace c then
      if cur.isEmpty then wsSplitAux [] rest else cur.reverse :: wsSplitAux [] rest
    else
      wsSplitAux (c :: cur) rest

/-- Python `s.split()` (no argument): split on whitespace runs, no empties. -/
def wsSplit (s : Str) : List Str := wsSplitAux [] s

/-- `' '.join(parts)`. -/
def joinSpace (parts : List Str) : Str := (" ".toList).intercalate parts

/-- Numeric value of a digit string. -/
def digitsVal (ds : Str) : Nat := ds.foldl (fun n c => 10 * n + (c.toNat - 48)) 0

/-- Python `int(s)` on an already-stripped string: optional sign followed by
at least one digit; anything else raises `ValueError`. -/
def pyIntCore : Str → Except Unit Int
  | [] => .error ()
  | '-' :: ds => if !ds.isEmpty && ds.all Char.isDigit then .ok (-(digitsVal ds : Int)) else .error ()
  | '+' :: ds => if !ds.isEmpty && ds.all Char.isDigit then .ok (digitsVal ds) else .error ()
  | c :: ds => if (c :: ds).all Char.isDigit then .ok (digitsVal (c :: ds)) else .error ()

/-- Python `int(s)`: leading/trailing whitespace is ignored. -/
def pyInt (s : Str) : Except Unit Int := pyIntCore (pyStrip s)

/-! ## Retrieved passages and `_extract_recipe_info` -/

/-- The metadata dict attached to a stored/retrieved recipe document.
Every key the chatbot reads is a field; an absent key is `none`. -/
structure Metadata where
  recipe_name : Option Str := none
  title : Option Str := none
  rating : Option Str := none
  prep_time_minutes : Option Str := none
  cook_time_minutes : Option Str := none
  total_time_minutes : Option Str := none
  servings : Option Str := none
  difficulty_level : Option Str := none
  cuisine_type : Option Str := none
  main_category : Option Str := none
  main_ingredients : Option (List Str) := none
  cooking_methods : Option (List Str) := none
  dietary_info : Option (List Str) := none
  has_image : Option Bool := none
  source_url : Option Str := none
  image_url : Option Str := none
  source : Option Str := none
deriving DecidableEq

/-- A retrieved passage (LangChain `Document`). `broken` models a malformed
passage whose attribute/metadata access raises when it is processed. -/
inductive SourceDoc where
  | ok (metadata : Metadata) (page_content : Str)
  | broken
deriving DecidableEq

/-- The structured per-recipe dict built by `_extract_recipe_info`. -/
structure RecipeInfo where
  name : Str
  rating : Str
  prep_time : Option Str
  cook_time : Option Str
  total_time : Option Str
  servings : Option Str
  difficulty : Str
  cuisine : Str
  category : Str
  main_ingredients : List Str
  cooking_methods : List Str
  dietary_info : List Str
  has_image : Bool
  source_url : Option Str
  instructions : Str
  image_url : Str
deriving DecidableEq

/-- `metadata.get('recipe_name', metadata.get('title', 'Unknown Recipe'))`. -/
def derivedName (m : Metadata) : Str :=
  m.recipe_name.getD (m.title.getD "Unknown Recipe".toList)

/-- The `recipe_info` dict literal of `_extract_recipe_info` (chatbot.py
lines 218-235), with its documented defaults for absent metadata keys. -/
def mkRecipeInfo (m : Metadata) (content : Str) : RecipeInfo :=
  { name := derivedName m
    rating := m.rating.getD "Not rated".toList
    prep_time := m.prep_time_minutes
    cook_time := m.cook_time_minutes
    total_time := m.total_time_minutes
    servings := m.servings
    difficulty := m.difficulty_level.getD "Unknown".toList
    cuisine := m.cuisine_type.getD "International".toList
    category := m.main_category.getD "General".toList
    main_ingredients := m.main_ingredients.getD []
    cooking_methods := m.cooking_methods.getD []
    dietary_info := m.dietary_info.getD []
    has_image := m.has_image.getD false
    source_url := m.source_url
    instructions := content
    image_url := m.image_url.getD [] }

/-- The loop of `_extract_recipe_info`: `seen` is the `seen_recipes` set.
A `broken` passage raises inside the per-document `try`, is logged and
skipped; a passage whose derived name was already seen is skipped. -/
def extractLoop : List SourceDoc → List Str → List RecipeInfo
  | [], _ => []
  | .broken :: rest, seen => extractLoop rest seen
  | .ok m c :: rest, seen =>
    let nm := derivedName m
    if seen.contains nm then extractLoop rest seen
    else mkRecipeInfo m c :: extractLoop rest (nm :: seen)

/-- `_extract_recipe_info`: consider only the first 6 passages
(`source_docs[:6]`), starting from an empty seen-set. -/
def extractRecipeInfo (source_docs : List SourceDoc) : List RecipeInfo :=
  extractLoop (source_docs.take 6) []

/-! ## `_parse_recipe_document` -/

/-- The `recipe_info` dict built by `_parse_recipe_document` and consumed by
`_apply_filters`. The dict can in principle carry `type` and `cooking_time`
keys — `_apply_filters` reads them — but the parser never writes either, so
they are `none` in every parse result (see `parse_type_none` and
`parse_cooking_time_none`). -/
structure ParsedRecipe where
  ingredients : Option Str := none
  instructions : Option Str := none
  nutrition : Option Str := none
  servings : Option Str := none
  description : Option Str := none
  type : Option Str := none
  cooking_time : Option Str := none
deriving DecidableEq

/-- One iteration of the section loop of `_parse_recipe_document`
(chatbot.py lines 408-414): a later section with the same header
overwrites an earlier one, exactly like repeated dict assignment. -/
def processSection (r : ParsedRecipe) (sec : Str) : ParsedRecipe :=
  if "Ingredients:".toList.isPrefixOf sec then
    { r with ingredients := some (pyStrip (pyRemoveAll "Ingredients:".toList sec)) }
  else if "Instructions:".toList.isPrefixOf sec then
    { r with instructions := some (pyStrip (pyRemoveAll "Instructions:".toList sec)) }
  else if "Nutrition Information:".toList.isPrefixOf sec then
    { r with nutrition := some (pyStrip (pyRemoveAll "Nutrition Information:".toList sec)) }
  else r

/-- The servings step (chatbot.py lines 417-420): the `'serves'` test is on
the lowercased instructions, but the split is on the original-case text, so
`instructions.split('serves')[1]` or the following `.split()[0]` can raise
(e.g. on "Serves 4") — that raise is an `.error`. -/
def extractServings (r : ParsedRecipe) : Except Unit ParsedRecipe :=
  match r.instructions with
  | none => .ok r
  | some instr =>
    if isSubstr "serves".toList (lowerStr instr) then
      match (pySplitSep "serves".toList instr).get? 1 with
      | none => .error ()
      | some after =>
        match (wsSplit after).head? with
        | none => .error ()
        | some tok => .ok { r with servings := some tok }
    else .ok r

/-- The description step (chatbot.py lines 423-424). -/
def addDescription (r : ParsedRecipe) : ParsedRecipe :=
  match r.instructions with
  | none => r
  | some instr =>
    { r with description := some (joinSpace ((wsSplit instr).take 20) ++ "...".toList) }

/-- Body of the `try` block of `_parse_recipe_document`. -/
def parseCoreE (doc : Str) : Except Unit ParsedRecipe :=
  (extractServings ((pySplitSep "\n\n".toList doc).foldl processSection {})).map addDescription

/-- `_parse_recipe_document`: on any exception, return the empty dict. -/
def parseRecipeDocument (doc : Str) : ParsedRecipe :=
  match parseCoreE doc with
  | .ok r => r
  | .error _ => {}

/-! ## `_apply_filters` -/

/-- The three meal-time tags of `_apply_filters`. -/
def mealTimes : List Str := ["breakfast".toList, "lunch".toList, "dinner".toList]

/-- The three meal-type tags of `_apply_filters`. -/
def mealTypes : List Str := ["dessert".toList, "snacks".toList, "main".toList]

/-- The three servings-bucket filter names of `_apply_filters`. -/
def servingsBuckets : List Str :=
  ["servings-1-2".toList, "servings-3-4".toList, "servings-5+".toList]

/-- The servings check (chatbot.py lines 460-467).
`int(recipe_info.get('servings', '0').split()[0])` can raise, both at the
`[0]` index and at the `int` conversion. -/
def servingsStep (r : ParsedRecipe) (fl : List Str) : Except Unit Bool :=
  if servingsBuckets.any fl.contains then
    match (wsSplit (r.servings.getD "0".toList)).head? with
    | none => .error ()
    | some tok =>
      match pyInt tok with
      | .error e => .error e
      | .ok servings =>
        if fl.contains "servings-1-2".toList && servings > 2 then .ok false
        else if fl.contains "servings-3-4".toList && (servings < 3 || servings > 4) then .ok false
        else if fl.contains "servings-5+".toList && servings < 5 then .ok false
        else .ok true
  else .ok true

/-- The cooking-time check (chatbot.py lines 455-457) followed by the
servings check. `int(recipe_info['cooking_time'])` can raise. -/
def cookingTimeStep (r : ParsedRecipe) (fl : List Str) (cookingTime : Int) : Except Unit Bool :=
  match r.cooking_time with
  | none => servingsStep r fl
  | some ct =>
    match pyInt ct with
    | .error e => .error e
    | .ok v => if v > cookingTime then .ok false else servingsStep r fl

/-- Body of the `try` block of `_apply_filters` (chatbot.py lines 437-469):
dietary check, meal-time check, meal-type check, then cooking time and
servings. Each early Python `return False` is an `.ok false`. -/
def applyFiltersCore (r : ParsedRecipe) (fl : List Str) (cookingTime : Int) : Except Unit Bool :=
  let typeL := lowerStr (r.type.getD [])
  if fl.contains "veg".toList && isSubstr "non-veg".toList typeL then .ok false
  else if fl.contains "non-veg".toList && isSubstr "veg".toList typeL then .ok false
  else if mealTimes.any fl.contains && !mealTimes.any (fun t => isSubstr t typeL) then .ok false
  else if mealTypes.any fl.contains && !mealTypes.any (fun t => isSubstr t typeL) then .ok false
  else cookingTimeStep r fl cookingTime

/-- `_apply_filters`. `filters` is `Option (List Str)` because the Python
argument may be `None`; `if not filters: return True` passes both `None` and
the empty list. Any exception inside the `try` defaults the recipe to pass. -/
def applyFilters (r : ParsedRecipe) (filters : Option (List Str)) (cookingTime : Int) : Bool :=
  match filters with
  | none => true
  | some fl =>
    if fl.isEmpty then true
    else
      match applyFiltersCore r fl cookingTime with
      | .ok b => b
      | .error _ => true

/-! ## `search_recipes` -/

/-- The metadata dict of one ChromaDB search hit as read by `search_recipes`:
`metadata['name']` and `metadata['rating']` are subscripted (raise when the
key is absent), `image_url` uses `.get` with default `''`. -/
structure SearchMeta where
  name : Option Str := none
  rating : Option Str := none
  image_url : Option Str := none
deriving DecidableEq

/-- The result card dict appended to `filtered_recipes` in `search_recipes`. -/
structure RecipeCard where
  name : Str
  image : Str
  rating : Str
  type : Str
  servings : Str
  description : Str
deriving DecidableEq

/-- The card literal of `search_recipes` (chatbot.py lines 386-393).
`metadata['name']` / `metadata['rating']` raise on a missing key, and
`'veg' in filters` raises `TypeError` when `filters` is `None`; each raise
is an `.error` that aborts the whole search. -/
def mkCard (m : SearchMeta) (filters : Option (List Str)) (ri : ParsedRecipe) :
    Except Unit RecipeCard :=
  match m.name with
  | none => .error ()
  | some nm =>
    match m.rating with
    | none => .error ()
    | some rt =>
      match filters with
      | none => .error ()
      | some fl =>
        .ok { name := nm
              image := m.image_url.getD []
              rating := rt
              type := if fl.contains "veg".toList then "Vegetarian".toList
                      else "Non-Vegetarian".toList
              servings := ri.servings.getD "N/A".toList
              description := ri.description.getD [] }

/-- The retrieval loop of `search_recipes`
(`for doc, metadata in zip(results['documents'][0], results['metadatas'][0])`):
parse each raw document, keep it when `_apply_filters` passes, build its card.
A raise while building a card propagates (`.error`). -/
def searchLoop (pairs : List (Str × SearchMeta)) (filters : Option (List Str))
    (cookingTime : Int) : Except Unit (List RecipeCard) :=
  match pairs with
  | [] => .ok []
  | (doc, m) :: rest =>
    let ri := parseRecipeDocument doc
    if applyFilters ri filters cookingTime then
      match mkCard m filters ri with
      | .error e => .error e
      | .ok card =>
        match searchLoop rest filters cookingTime with
        | .error e => .error e
        | .ok cards => .ok (card :: cards)
    else searchLoop rest filters cookingTime

/-- `search_recipes`: the retrieved (document, metadata) pairs stand for
`results['documents'][0] × results['metadatas'][0]`; the outer `try/except`
turns any raise into an empty result list, and at most 10 cards are
returned (`filtered_recipes[:10]`). -/
def searchRecipes (pairs : List (Str × SearchMeta)) (filters : Option (List Str))
    (cookingTime : Int) : List RecipeCard :=
  match searchLoop pairs filters cookingTime with
  | .ok cards => cards.take 10
  | .error _ => []

/-! ## `_enhance_user_query` -/

/-- The ingredient-intent trigger words. -/
def ingredientWords : List Str := ["have".toList, "using".toList, "with".toList, "got".toList]

/-- The time trigger words. -/
def timeWords : List Str :=
  ["quick".toList, "fast".toList, "easy".toList, "30 min".toList, "hour".toList]

/-- The dietary trigger words. -/
def dietaryWords : List Str :=
  ["vegetarian".toList, "vegan".toList, "gluten-free".toList, "low-fat".toList]

/-- The cuisine trigger words. -/
def cuisineWords : List Str :=
  ["italian".toList, "mexican".toList, "asian".toList, "indian".toList,
   "american".toList, "chinese".toList, "thai".toList]

/-- The `enhancements` list built by `_enhance_user_query`: one entry per
triggered signal class, in source order. All membership tests are substring
tests on the lowercased input. -/
def enhancements (userInput : Str) : List Str :=
  let query := lowerStr userInput
  (if ingredientWords.any (fun w => isSubstr w query) then ["recipe ingredients".toList] else [])
    ++ (if timeWords.any (fun w => isSubstr w query) then ["cooking time".toList] else [])
    ++ (if dietaryWords.any (fun w => isSubstr w query) then ["dietary".toList] else [])
    ++ (if cuisineWords.any (fun w => isSubstr w query) then ["cuisine".toList] else [])

/-- `_enhance_user_query`: `f"{user_input} {' '.join(enhancements)}"` when any
signal fired, the untouched input otherwise. -/
def enhanceUserQuery (userInput : Str) : Str :=
  if (enhancements userInput).isEmpty then userInput
  else userInput ++ ' ' :: joinSpace (enhancements userInput)

/-! ## `_generate_follow_up_suggestions` -/

/-- The generic suggestions used to pad short suggestion lists. -/
def genericSuggestions : List Str :=
  ["Show me ingredients and instructions".toList,
   "What cuisine type would you recommend?".toList,
   "Give me cooking tips for beginners".toList]

/-- The branch chain of `_generate_follow_up_suggestions` (chatbot.py lines
270-288). The recipes branch requires `len(recipes) > 1` and reads
`recipes[0]['name']`. -/
def branchSuggestions (query : Str) (recipes : List RecipeInfo) : List Str :=
  if isSubstr "ingredient".toList query || isSubstr "have".toList query then
    ["Show me the full recipe for the first suggestion".toList,
     "What can I substitute if I'm missing an ingredient?".toList,
     "How long will this take to prepare?".toList]
  else if ["quick".toList, "fast".toList, "easy".toList].any (fun w => isSubstr w query) then
    ["Show me recipes under 30 minutes".toList,
     "What are some meal prep options?".toList,
     "Give me beginner-friendly recipes".toList]
  else
    match recipes with
    | r :: _ :: _ =>
      ["Tell me more about ".toList ++ r.name,
       "Compare the difficulty of these recipes".toList,
       "Which recipe has the highest rating?".toList]
    | _ => []

/-- `_generate_follow_up_suggestions`: branch suggestions, padded with the
generic ones when fewer than 3, then truncated to 3. -/
def generateFollowUpSuggestions (userInput : Str) (recipes : List RecipeInfo) : List Str :=
  let suggestions := branchSuggestions (lowerStr userInput) recipes
  let padded := if suggestions.length < 3 then suggestions ++ genericSuggestions else suggestions
  padded.take 3

/-! ## `_process_sources` -/

/-- One entry of the deduplicated source list. -/
structure SourceEntry where
  source : Str
  recipe_name : Str
  content_preview : Str
deriving DecidableEq

/-- The 150-character content preview with ellipsis marker. -/
def contentPreview (content : Str) : Str :=
  if 150 < content.length then content.take 150 ++ "...".toList else content

/-- The loop of `_process_sources`. Unlike `_extract_recipe_info` this loop
has no per-document `try`, so a `broken` passage raises out of the whole
call (and out to `get_response`'s handler). -/
def processSourcesLoop : List SourceDoc → List Str → Except Unit (List SourceEntry)
  | [], _ => .ok []
  | .broken :: _, _ => .error ()
  | .ok m c :: rest, seen =>
    let source := m.source.getD "Recipe Database".toList
    let recipeName := m.recipe_name.getD "Unknown Recipe".toList
    let key := source ++ '_' :: recipeName
    if seen.contains key then processSourcesLoop rest seen
    else
      match processSourcesLoop rest (key :: seen) with
      | .error e => .error e
      | .ok entries =>
        .ok ({ source := source, recipe_name := recipeName,
               content_preview := contentPreview c } :: entries)

/-- `_process_sources`: deduplicate by `source_recipe-name` key, cap at 5. -/
def processSources (source_docs : List SourceDoc) : Except Unit (List SourceEntry) :=
  match processSourcesLoop source_docs [] with
  | .error e => .error e
  | .ok entries => .ok (entries.take 5)

/-! ## `_format_response` and `get_response` -/

/-- Decimal rendering of a natural number, as a character list. -/
def natToStr (n : Nat) : Str := (Nat.repr n).toList

/-- Python truthiness of an optional string value (`None` and `''` are falsy). -/
def pyTruthyS (o : Option Str) : Bool :=
  match o with
  | none => false
  | some s => !s.isEmpty

/-- The generative capability used for per-recipe descriptions
(`self.llm.invoke(description_prompt)`), abstracted as an oracle that may
fail. -/
abbrev DescOracle := RecipeInfo → Except Str Str

/-- `_generate_recipe_description`: strip the generated text and cap it at
200 characters by keeping the first 200 words plus an ellipsis; on a failed
generative call, fall back to the templated one-line description. -/
def generateRecipeDescription (descO : DescOracle) (r : RecipeInfo) : Str :=
  match descO r with
  | .ok text =>
    let description := pyStrip text
    if 200 < description.length then joinSpace ((wsSplit description).take 200) ++ "...".toList
    else description
  | .error _ =>
    "A ".toList ++ r.cuisine ++ " ".toList ++ r.category
      ++ " that's ".toList ++ r.difficulty ++ " difficult to prepare.".toList

/-- One numbered recipe line of the summary block appended by
`_format_response` (chatbot.py lines 308-329). -/
def recipeLine (descO : DescOracle) (i : Nat) (r : RecipeInfo) : Str :=
  let timeInfo :=
    if pyTruthyS r.total_time then " • ⏱️ ".toList ++ r.total_time.getD [] ++ " min".toList
    else if pyTruthyS r.cook_time then " • ⏱️ ".toList ++ r.cook_time.getD [] ++ " min".toList
    else []
  let ratingInfo :=
    if !r.rating.isEmpty && !(r.rating == "Not rated".toList) then
      " • ⭐ ".toList ++ r.rating ++ "/5".toList
    else []
  let imageHtml :=
    if !r.image_url.isEmpty then
      "<img src=\"".toList ++ r.image_url ++ "\" alt=\"".toList ++ r.name
        ++ "\" style=\"max-width: 300px; border-radius: 8px; margin: 10px 0;\">".toList
    else []
  natToStr i ++ ". **".toList ++ r.name ++ "** (".toList ++ r.difficulty ++ ")".toList
    ++ timeInfo ++ ratingInfo ++ "\n".toList
    ++ (if !r.image_url.isEmpty then "   ".toList ++ imageHtml ++ "\n".toList else [])
    ++ "   ".toList ++ generateRecipeDescription descO r ++ "\n\n".toList

/-- `_format_response`: unchanged answer for zero or one recipe; for more,
append the summary block for the first three recipes, numbered from 1. -/
def formatResponse (descO : DescOracle) (answer : Str) (recipes : List RecipeInfo) : Str :=
  if recipes.isEmpty then answer
  else if 1 < recipes.length then
    answer ++ "\n\n📚 **Found ".toList ++ natToStr recipes.length ++ " recipes for you:**\n".toList
      ++ ((recipes.take 3).enum.map (fun p => recipeLine descO (p.1 + 1) p.2)).flatten
  else answer

/-- What the conversation chain returns: the generated answer plus the
retrieved source documents (`result.get("source_documents", [])`). -/
structure ChatResult where
  answer : Str
  source_documents : List SourceDoc
deriving DecidableEq

/-- The retrieval/generation capability behind
`self.conversation_chain.invoke({"question": ...})`, abstracted as an oracle
from the processed query to a result or a raised error message. -/
abbrev ChainOracle := Str → Except Str ChatResult

/-- The full response dict of `get_response`. -/
structure Response where
  answer : Str
  sources : List SourceEntry
  recipes : List RecipeInfo
  suggestions : List Str
  error : Option Str
deriving DecidableEq

/-- The canned greeting returned for empty/whitespace input
(chatbot.py lines 126-132). -/
def greetingResponse : Response :=
  { answer := "Hello! I'm your recipe assistant. Ask me about recipes, cooking tips, or tell me what ingredients you have and I'll suggest some delicious dishes you can make!".toList
    sources := []
    recipes := []
    suggestions := ["What ingredients do you have?".toList,
                    "Show me quick dinner recipes".toList,
                    "I need a vegetarian meal".toList]
    error := none }

/-- The apologetic response returned when any stage of `get_response`
raises (chatbot.py lines 161-171); the exception text lands in `error`. -/
def errorResponse (e : Str) : Response :=
  { answer := "I'm sorry, I encountered an issue while searching for recipes. Please try rephrasing your question or ask about a specific dish or ingredient.".toList
    sources := []
    recipes := []
    suggestions := ["Try asking about a specific ingredient".toList,
                    "Search for a cuisine type".toList,
                    "Ask for cooking tips".toList]
    error := some e }

/-- The error text standing for the exception raised when `_process_sources`
hits a malformed passage. -/
def sourcesErrorMsg : Str := "metadata access error".toList

/-- Body of the `try` block of `get_response` (chatbot.py lines 134-159):
enhance the query, invoke the chain, extract recipes, deduplicate sources,
generate suggestions, format the answer. -/
def getResponseTry (chainO : ChainOracle) (descO : DescOracle) (userInput : Str) :
    Except Str Response :=
  match chainO (enhanceUserQuery userInput) with
  | .error e => .error e
  | .ok result =>
    let recipesInfo := extractRecipeInfo result.source_documents
    match processSources result.source_documents with
    | .error _ => .error sourcesErrorMsg
    | .ok uniqueSources =>
      .ok { answer := formatResponse descO result.answer recipesInfo
            sources := uniqueSources
            recipes := recipesInfo
            suggestions := generateFollowUpSuggestions userInput recipesInfo
            error := none }

/-- `get_response`: empty/whitespace input short-circuits to the greeting
before the `try`; otherwise any raised error becomes the apologetic
response. -/
def getResponse (chainO : ChainOracle) (descO : DescOracle) (userInput : Str) : Response :=
  if (pyStrip userInput).isEmpty then greetingResponse
  else
    match getResponseTry chainO descO userInput with
    | .ok r => r
    | .error e => errorResponse e

/-! ## Definitions used to state the claims -/

/-- `_apply_filters` with the meal-time block removed: the conjunction of all
the OTHER active filters. Used to state what "passes all other active
filters" means for the meal-time claim. -/
def applyFiltersCoreNoMealTime (r : ParsedRecipe) (fl : List Str) (cookingTime : Int) :
    Except Unit Bool :=
  let typeL := lowerStr (r.type.getD [])
  if fl.contains "veg".toList && isSubstr "non-veg".toList typeL then .ok false
  else if fl.contains "non-veg".toList && isSubstr "veg".toList typeL then .ok false
  else if mealTypes.any fl.contains && !mealTypes.any (fun t => isSubstr t typeL) then .ok false
  else cookingTimeStep r fl cookingTime

/-- "Passes all other active filters": the non-meal-time filters, with the
same on-error-pass default as `_apply_filters`. -/
def passesOtherFilters (r : ParsedRecipe) (fl : List Str) (cookingTime : Int) : Bool :=
  match applyFiltersCoreNoMealTime r fl cookingTime with
  | .ok b => b
  | .error _ => true

/-- The meal-time type label match demanded by the spec: the recipe's
inferred type contains one of the REQUESTED meal-time tags. -/
def matchesRequestedMealTime (r : ParsedRecipe) (fl : List Str) : Bool :=
  mealTimes.any (fun t => fl.contains t && isSubstr t (lowerStr (r.type.getD [])))

/-- A stored recipe document whose text states a 60-minute cooking time. -/
def doc60 : Str :=
  "Recipe: Beef Stew\n\nIngredients:\nbeef, carrots, onion\n\nInstructions:\nCook the stew for 60 minutes total. serves 4".toList

/-- The search metadata of `doc60`. -/
def meta60 : SearchMeta :=
  { name := some "Beef Stew".toList, rating := some "4.5".toList }

/-- A stored recipe document whose "serves" phrase is followed by a
non-numeric token, so the servings filter evaluation raises. -/
def docAbc : Str := "Instructions:\nMix everything well. serves abc people".toList

/-- The search metadata of `docAbc`. -/
def metaAbc : SearchMeta := { name := some "Snack Mix".toList, rating := some "3".toList }

/-- The card `search_recipes` builds for `docAbc` under the
`["servings-1-2"]` filter. -/
def cardAbc : RecipeCard :=
  { name := "Snack Mix".toList, image := [], rating := "3".toList,
    type := "Non-Vegetarian".toList, servings := "abc".toList,
    description := "Mix everything well. serves abc people...".toList }

/-- The card `search_recipes` builds for `doc60` under empty filters. -/
def card60 : RecipeCard :=
  { name := "Beef Stew".toList, image := [], rating := "4.5".toList,
    type := "Non-Vegetarian".toList, servings := "4".toList,
    description := "Cook the stew for 60 minutes total. serves 4...".toList }

/-- A retrieved passage carrying its name under `recipe_name`. -/
def mPasta1 : Metadata := { recipe_name := some "Pasta".toList }

/-- A distinct retrieved passage carrying the same name under `title`. -/
def mPasta2 : Metadata := { title := some "Pasta".toList, rating := some "5".toList }

/-- A passage metadata with neither `recipe_name` nor `title`. -/
def mNoName1 : Metadata := { rating := some "1".toList }

/-- Another nameless passage metadata, describing a different recipe. -/
def mNoName2 : Metadata := { cuisine_type := some "Thai".toList }

/-- A conversation-chain oracle that always raises. -/
def failingChain : ChainOracle := fun _ => .error "boom".toList

/-- A description oracle that always raises. -/
def failingDesc : DescOracle := fun _ => .error "desc down".toList

/-! ## Helper lemmas -/

/-- The suggestion branch chain yields either no suggestion or exactly 3. -/
lemma branchSuggestions_length (q : Str) (rs : List RecipeInfo) :
    (branchSuggestions q rs).length = 0 ∨ (branchSuggestions q rs).length = 3 := by
  unfold branchSuggestions
  split_ifs with h1 h2
  · right; rfl
  · right; rfl
  · cases rs with
    | nil => left; rfl
    | cons r tail =>
      cases tail with
      | nil => left; rfl
      | cons s t => right; rfl

/-- `_generate_follow_up_suggestions` always returns exactly 3 suggestions. -/
lemma generateFollowUpSuggestions_length (userInput : Str) (recipes : List RecipeInfo) :
    (generateFollowUpSuggestions userInput recipes).length = 3 := by
  unfold generateFollowUpSuggestions
  rcases branchSuggestions_length (lowerStr userInput) recipes with h | h
  · rw [List.length_eq_zero.mp h]
    rfl
  · simp [h, List.length_take]

/-- The section loop never touches the `type` or `cooking_time` keys. -/
lemma processSection_type_ct (r : ParsedRecipe) (sec : Str) :
    (processSection r sec).type = r.type ∧ (processSection r sec).cooking_time = r.cooking_time := by
  unfold processSection
  split_ifs <;> exact ⟨rfl, rfl⟩

/-- Folding the section loop never touches `type` or `cooking_time`. -/
lemma foldl_processSection_type_ct (secs : List Str) :
    ∀ r : ParsedRecipe, ((secs.foldl processSection r).type = r.type
      ∧ (secs.foldl processSection r).cooking_time = r.cooking_time) := by
  induction secs with
  | nil => intro r; exact ⟨rfl, rfl⟩
  | cons s rest ih =>
    intro r
    have h := processSection_type_ct r s
    have h2 := ih (processSection r s)
    simp only [List.foldl_cons]
    exact ⟨h2.1.trans h.1, h2.2.trans h.2⟩

/-- The servings step never touches `type` or `cooking_time`. -/
lemma extractServings_type_ct (r r' : ParsedRecipe) (h : extractServings r = .ok r') :
    r'.type = r.type ∧ r'.cooking_time = r.cooking_time := by
  unfold extractServings at h
  rcases hi : r.instructions with _ | instr <;> rw [hi] at h <;> dsimp only at h
  · cases h; exact ⟨rfl, rfl⟩
  · split_ifs at h
    · rcases hp : (pySplitSep "serves".toList instr).get? 1 with _ | after <;>
        rw [hp] at h <;> dsimp only at h
      · cases h
      · rcases ht : (wsSplit after).head? with _ | tok <;> rw [ht] at h <;> dsimp only at h
        · cases h
        · cases h; exact ⟨rfl, rfl⟩
    · cases h; exact ⟨rfl, rfl⟩

/-- The description step never touches `type` or `cooking_time`. -/
lemma addDescription_type_ct (r : ParsedRecipe) :
    (addDescription r).type = r.type ∧ (addDescription r).cooking_time = r.cooking_time := by
  unfold addDescription
  rcases r.instructions with _ | instr <;> exact ⟨rfl, rfl⟩

/-- `_parse_recipe_document` never produces a `type` key. -/
lemma parse_type_none (doc : Str) : (parseRecipeDocument doc).type = none := by
  unfold parseRecipeDocument parseCoreE
  rcases hs : extractServings ((pySplitSep "\n\n".toList doc).foldl processSection {}) with e | r'
  · rfl
  · have h1 := extractServings_type_ct _ _ hs
    have h2 := foldl_processSection_type_ct (pySplitSep "\n\n".toList doc) {}
    have h3 := addDescription_type_ct r'
    simp only [Except.map]
    rw [h3.1, h1.1, h2.1]

/-- With a meal-time filter active and no `type` key in the parsed dict, the
`_apply_filters` body rejects the recipe at the meal-time check. -/
lemma applyFiltersCore_mealTime_reject (r : ParsedRecipe) (fl : List Str) (ct : Int)
    (hty : r.type = none) (h : mealTimes.any fl.contains = true) :
    applyFiltersCore r fl ct = .ok false := by
  unfold applyFiltersCore
  rw [hty]
  have h1 : isSubstr "non-veg".toList (lowerStr (Option.getD (none : Option Str) [])) = false := rfl
  have h2 : isSubstr "veg".toList (lowerStr (Option.getD (none : Option Str) [])) = false := rfl
  have h3 : mealTimes.any
      (fun t => isSubstr t (lowerStr (Option.getD (none : Option Str) []))) = false := rfl
  simp only [h1, h2, h3, h, Bool.and_false, Bool.and_true, Bool.not_false,
    Bool.false_eq_true, if_false, if_true, reduceIte]

/-- A meal-time filter forces a non-empty filter list. -/
lemma mealTime_filters_ne_nil (fl : List Str) (h : mealTimes.any fl.contains = true) :
    fl.isEmpty = false := by
  cases fl with
  | nil => simp [mealTimes] at h
  | cons a l => rfl

/-- With a meal-time filter active, `_apply_filters` rejects every parsed
recipe (the parser never writes a `type` key, so the inferred type never
contains a meal-time tag). -/
lemma applyFilters_mealTime_false (doc : Str) (fl : List Str) (ct : Int)
    (h : mealTimes.any fl.contains = true) :
    applyFilters (parseRecipeDocument doc) (some fl) ct = false := by
  have hcore := applyFiltersCore_mealTime_reject (parseRecipeDocument doc) fl ct
    (parse_type_none doc) h
  unfold applyFilters
  dsimp only
  rw [mealTime_filters_ne_nil fl h, hcore]
  rfl

/-- `_parse_recipe_document` never produces a `cooking_time` key. -/
lemma parse_cooking_time_none (doc : Str) : (parseRecipeDocument doc).cooking_time = none := by
  unfold parseRecipeDocument parseCoreE
  rcases hs : extractServings ((pySplitSep "\n\n".toList doc).foldl processSection {}) with e | r'
  · rfl
  · have h1 := extractServings_type_ct _ _ hs
    have h2 := foldl_processSection_type_ct (pySplitSep "\n\n".toList doc) {}
    have h3 := addDescription_type_ct r'
    simp only [Except.map]
    rw [h3.2, h1.2, h2.2]

/-- A Boolean `any` of conjunctions whose right conjunct is always false. -/
lemma any_and_false (l : List Str) (f p : Str → Bool) (h : ∀ t ∈ l, p t = false) :
    (l.any fun t => f t && p t) = false := by
  induction l with
  | nil => rfl
  | cons a l ih =>
    simp only [List.any_cons, ih (fun t ht => h t (List.mem_cons_of_mem a ht)),
      h a (List.mem_cons_self a l), Bool.and_false, Bool.false_or]

/-- The inferred type of a parsed recipe never contains a requested meal-time
tag, because the parser never writes a `type` key. -/
lemma matchesRequestedMealTime_false (doc : Str) (fl : List Str) :
    matchesRequestedMealTime (parseRecipeDocument doc) fl = false := by
  unfold matchesRequestedMealTime
  rw [parse_type_none doc]
  exact any_and_false mealTimes _ _ (by decide)


/-- Invariant of the extraction loop: the produced names are distinct and
none of them was already in the seen-set. -/
lemma extractLoop_invariant (docs : List SourceDoc) :
    ∀ seen : List Str, ((extractLoop docs seen).map RecipeInfo.name).Nodup
      ∧ ∀ r ∈ extractLoop docs seen, seen.contains r.name = false := by
  induction docs with
  | nil =>
    intro seen
    exact ⟨List.nodup_nil, fun r hr => absurd hr (List.not_mem_nil r)⟩
  | cons d rest ih =>
    intro seen
    cases d with
    | broken => simpa only [extractLoop] using ih seen
    | ok m c =>
      rcases hc : seen.contains (derivedName m) with _ | _
      · obtain ⟨ih1, ih2⟩ := ih (derivedName m :: seen)
        have hloop : extractLoop (.ok m c :: rest) seen
            = mkRecipeInfo m c :: extractLoop rest (derivedName m :: seen) := by
          simp only [extractLoop, hc, Bool.false_eq_true, if_false]
        have hname : (mkRecipeInfo m c).name = derivedName m := rfl
        have hnotin : derivedName m ∉ (extractLoop rest (derivedName m :: seen)).map RecipeInfo.name := by
          intro hmem
          obtain ⟨r, hr, hrn⟩ := List.mem_map.mp hmem
          have h2 := ih2 r hr
          rw [List.contains_cons, hrn] at h2
          simp at h2
        constructor
        · rw [hloop, List.map_cons, hname]
          exact List.nodup_cons.mpr ⟨hnotin, ih1⟩
        · intro r hr
          rw [hloop] at hr
          rcases List.mem_cons.mp hr with rfl | hr2
          · rw [hname]; exact hc
          · have h2 := ih2 r hr2
            rw [List.contains_cons] at h2
            exact (Bool.or_eq_false_iff.mp h2).2
      · obtain ⟨ih1, ih2⟩ := ih seen
        have hloop : extractLoop (.ok m c :: rest) seen = extractLoop rest seen := by
          simp only [extractLoop, hc, if_true]
        exact ⟨hloop ▸ ih1, fun r hr => ih2 r (hloop ▸ hr)⟩

/-- The extraction only ever looks at the first 6 passages. -/
lemma extract_take6 (docs : List SourceDoc) :
    extractRecipeInfo docs = extractRecipeInfo (docs.take 6) := by
  unfold extractRecipeInfo
  rw [List.take_take]
  norm_num

/-- The extracted recipe names are pairwise distinct. -/
lemma extract_names_nodup (docs : List SourceDoc) :
    ((extractRecipeInfo docs).map RecipeInfo.name).Nodup :=
  (extractLoop_invariant (docs.take 6) []).1

/-- Two passages with the same derived name collapse to the first one. -/
lemma extract_pair_dedup (m₁ : Metadata) (c₁ : Str) (m₂ : Metadata) (c₂ : Str)
    (h : derivedName m₁ = derivedName m₂) :
    extractRecipeInfo [.ok m₁ c₁, .ok m₂ c₂] = [mkRecipeInfo m₁ c₁] := by
  unfold extractRecipeInfo
  simp only [List.take, extractLoop]
  rw [← h]
  simp [List.contains_cons]

/-- The type label of any successfully built card depends only on whether
"veg" is an element of the filter list. -/
lemma mkCard_type (m : SearchMeta) (fl : List Str) (ri : ParsedRecipe) (card : RecipeCard)
    (h : mkCard m (some fl) ri = .ok card) :
    card.type = (if fl.contains "veg".toList then "Vegetarian".toList
                 else "Non-Vegetarian".toList) := by
  unfold mkCard at h
  rcases hn : m.name with _ | nm <;> rw [hn] at h <;> dsimp only at h
  · cases h
  · rcases hr : m.rating with _ | rt <;> rw [hr] at h <;> dsimp only at h
    · cases h
    · cases h; rfl

/-- Every card produced by the search loop carries the filter-determined
type label. -/
lemma searchLoop_type_label (fl : List Str) (ct : Int) :
    ∀ (pairs : List (Str × SearchMeta)) (cards : List RecipeCard),
      searchLoop pairs (some fl) ct = .ok cards →
      ∀ c ∈ cards, c.type = (if fl.contains "veg".toList then "Vegetarian".toList
                             else "Non-Vegetarian".toList) := by
  intro pairs
  induction pairs with
  | nil =>
    intro cards h c hc
    cases h
    cases hc
  | cons p rest ih =>
    intro cards h c hc
    obtain ⟨d, m⟩ := p
    unfold searchLoop at h
    dsimp only at h
    rcases happ : applyFilters (parseRecipeDocument d) (some fl) ct with _ | _ <;>
      rw [happ] at h
    · exact ih cards h c hc
    · rcases hmk : mkCard m (some fl) (parseRecipeDocument d) with e | card <;>
        rw [hmk] at h <;> dsimp only at h
      · cases h
      · rcases hloop : searchLoop rest (some fl) ct with e | cards' <;>
          rw [hloop] at h <;> dsimp only at h
        · cases h
        · cases h
          rcases List.mem_cons.mp hc with rfl | hc2
          · exact mkCard_type m fl (parseRecipeDocument d) c hmk
          · exact ih cards' hloop c hc2

/-- Membership in the search result implies membership in the loop output. -/
lemma searchRecipes_mem (pairs : List (Str × SearchMeta)) (fl : Option (List Str)) (ct : Int)
    (c : RecipeCard) (hc : c ∈ searchRecipes pairs fl ct) :
    ∃ cards, searchLoop pairs fl ct = .ok cards ∧ c ∈ cards := by
  unfold searchRecipes at hc
  rcases h : searchLoop pairs fl ct with e | cards <;> rw [h] at hc
  · cases hc
  · exact ⟨cards, rfl, List.mem_of_mem_take hc⟩

/-- Every response of `get_response` carries exactly 3 suggestions, on the
greeting path, the success path and the error path alike. -/
lemma getResponse_suggestions_three (chainO : ChainOracle) (descO : DescOracle) (input : Str) :
    (getResponse chainO descO input).suggestions.length = 3 := by
  unfold getResponse
  split_ifs with hws
  · rfl
  · rcases htry : getResponseTry chainO descO input with e | r
    · rfl
    · unfold getResponseTry at htry
      rcases hch : chainO (enhanceUserQuery input) with e | result <;>
        rw [hch] at htry <;> dsimp only at htry
      · cases htry
      · rcases hps : processSources result.source_documents with e | us <;>
          rw [hps] at htry <;> dsimp only at htry
        · cases htry
        · cases htry
          exact generateFollowUpSuggestions_length input _

/-! ## The claims -/

/-- C1: for every filtered-search call whose filter list contains a meal-time
tag (breakfast/lunch/dinner), a recipe passes the filters only if the type
inferred from its parsed document text contains one of the requested
meal-time tags, and every recipe whose inferred type matches a requested tag
and passes all other active filters does pass. (Both sides hold vacuously on
this code: the parser never produces a `type` key, so no recipe matches and
none is included once a meal-time filter is set.) -/
theorem claim_C1 (doc : Str) (fl : List Str) (ct : Int)
    (hmeal : mealTimes.any fl.contains = true) :
    (applyFilters (parseRecipeDocument doc) (some fl) ct = true →
      matchesRequestedMealTime (parseRecipeDocument doc) fl = true)
    ∧ (matchesRequestedMealTime (parseRecipeDocument doc) fl = true
        ∧ passesOtherFilters (parseRecipeDocument doc) fl ct = true →
      applyFilters (parseRecipeDocument doc) (some fl) ct = true) := by
  constructor
  · intro hinc
    rw [applyFilters_mealTime_false doc fl ct hmeal] at hinc
    cases hinc
  · rintro ⟨hmatch, _⟩
    rw [matchesRequestedMealTime_false doc fl] at hmatch
    cases hmatch

/-- Witness for C1 at a concrete input: the filter list `["breakfast"]`
activates the meal-time filter, and the claimed equivalence holds for the
concrete stew document. -/
theorem claim_C1_witness :
    mealTimes.any (["breakfast".toList] : List Str).contains = true
    ∧ ((applyFilters (parseRecipeDocument doc60) (some ["breakfast".toList]) 30 = true →
        matchesRequestedMealTime (parseRecipeDocument doc60) ["breakfast".toList] = true)
      ∧ (matchesRequestedMealTime (parseRecipeDocument doc60) ["breakfast".toList] = true
          ∧ passesOtherFilters (parseRecipeDocument doc60) ["breakfast".toList] 30 = true →
        applyFilters (parseRecipeDocument doc60) (some ["breakfast".toList]) 30 = true)) :=
  ⟨by decide, claim_C1 doc60 ["breakfast".toList] 30 (by decide)⟩

/-- C5: recipe extraction builds at most one RecipeInfo per distinct recipe
name from at most the first 6 retrieved passages; two passages with the same
derived name yield exactly the first-seen RecipeInfo; missing metadata fields
take the documented defaults; a malformed passage is skipped without failing
the whole extraction. -/
theorem claim_C5 :
    (∀ docs, extractRecipeInfo docs = extractRecipeInfo (docs.take 6))
    ∧ (∀ docs, ((extractRecipeInfo docs).map RecipeInfo.name).Nodup)
    ∧ (∀ m₁ c₁ m₂ c₂, derivedName m₁ = derivedName m₂ →
        extractRecipeInfo [.ok m₁ c₁, .ok m₂ c₂] = [mkRecipeInfo m₁ c₁])
    ∧ (∀ m c, m.rating = none → m.cuisine_type = none → m.difficulty_level = none →
        (mkRecipeInfo m c).rating = "Not rated".toList
        ∧ (mkRecipeInfo m c).cuisine = "International".toList
        ∧ (mkRecipeInfo m c).difficulty = "Unknown".toList)
    ∧ (∀ docs seen, extractLoop (.broken :: docs) seen = extractLoop docs seen) := by
  refine ⟨extract_take6, extract_names_nodup, extract_pair_dedup, ?_, fun docs seen => rfl⟩
  intro m c hr hc hd
  unfold mkRecipeInfo
  rw [hr, hc, hd]
  exact ⟨rfl, rfl, rfl⟩

/-- Witness for C5 at concrete inputs: two passages named "Pasta" (one via
`recipe_name`, one via `title`) collapse to the first, and the documented
defaults appear for the missing fields of the first passage. -/
theorem claim_C5_witness :
    (derivedName mPasta1 = derivedName mPasta2
      ∧ extractRecipeInfo [.ok mPasta1 [], .ok mPasta2 []] = [mkRecipeInfo mPasta1 []])
    ∧ (mPasta1.rating = none
      ∧ (mkRecipeInfo mPasta1 []).rating = "Not rated".toList
      ∧ (mkRecipeInfo mPasta1 []).cuisine = "International".toList
      ∧ (mkRecipeInfo mPasta1 []).difficulty = "Unknown".toList) :=
  ⟨⟨by decide, claim_C5.2.2.1 mPasta1 [] mPasta2 [] (by decide)⟩,
   ⟨by decide, claim_C5.2.2.2.1 mPasta1 [] (by decide) (by decide) (by decide)⟩⟩

/-- C10: any two retrieved passages that both lack the `recipe_name` and
`title` metadata keys get the fallback name "Unknown Recipe" and collapse
into a single RecipeInfo — the first such passage is kept and the later
nameless passage is dropped, even though their contents and remaining
metadata may describe different recipes. -/
theorem claim_C10 (m₁ : Metadata) (c₁ : Str) (m₂ : Metadata) (c₂ : Str)
    (h₁n : m₁.recipe_name = none) (h₁t : m₁.title = none)
    (h₂n : m₂.recipe_name = none) (h₂t : m₂.title = none) :
    derivedName m₁ = "Unknown Recipe".toList
    ∧ derivedName m₂ = "Unknown Recipe".toList
    ∧ extractRecipeInfo [.ok m₁ c₁, .ok m₂ c₂] = [mkRecipeInfo m₁ c₁] := by
  have e₁ : derivedName m₁ = "Unknown Recipe".toList := by
    unfold derivedName; rw [h₁n, h₁t]; rfl
  have e₂ : derivedName m₂ = "Unknown Recipe".toList := by
    unfold derivedName; rw [h₂n, h₂t]; rfl
  exact ⟨e₁, e₂, extract_pair_dedup m₁ c₁ m₂ c₂ (e₁.trans e₂.symm)⟩

/-- Witness for C10 at concrete inputs: two nameless passages with different
contents and different remaining metadata collapse to the first one. -/
theorem claim_C10_witness :
    (mNoName1.recipe_name = none ∧ mNoName1.title = none
      ∧ mNoName2.recipe_name = none ∧ mNoName2.title = none)
    ∧ (derivedName mNoName1 = "Unknown Recipe".toList
      ∧ derivedName mNoName2 = "Unknown Recipe".toList
      ∧ extractRecipeInfo [.ok mNoName1 "doc A".toList, .ok mNoName2 "doc B".toList]
          = [mkRecipeInfo mNoName1 "doc A".toList]) :=
  ⟨⟨rfl, rfl, rfl, rfl⟩,
   claim_C10 mNoName1 "doc A".toList mNoName2 "doc B".toList rfl rfl rfl rfl⟩

/-- C4: for every user input and extracted recipe list, the suggestions list
returned by `_generate_follow_up_suggestions` has length exactly 3,
regardless of which branch produced it. -/
theorem claim_C4 (userInput : Str) (recipes : List RecipeInfo) :
    (generateFollowUpSuggestions userInput recipes).length = 3 :=
  generateFollowUpSuggestions_length userInput recipes

/-- Counterexample to C6 as stated: the input "I have recipe ingredients"
contains the ingredient-intent word "have", yet the enhanced query contains
the phrase "recipe ingredients" twice, not exactly once, because the
original input already contains it. -/
theorem claim_C6_counterexample :
    (ingredientWords.any
      (fun w => isSubstr w (lowerStr "I have recipe ingredients".toList))) = true
    ∧ ¬(countSubstr "recipe ingredients".toList
        (enhanceUserQuery "I have recipe ingredients".toList) = 1) := by
  constructor
  · decide
  · decide

/-- C6 (amended): for every input containing an ingredient-intent word, the
enhanced query is the original input followed by a space and the joined
enhancement list (so the original input is a prefix), and the APPENDED
enhancement text contains "recipe ingredients" exactly once even when
several ingredient-intent words are present; the full enhanced query
contains the phrase exactly once only when the original input does not
already contain it. -/
theorem claim_C6 (input : Str)
    (h : (ingredientWords.any fun w => isSubstr w (lowerStr input)) = true) :
    enhanceUserQuery input = input ++ ' ' :: joinSpace (enhancements input)
    ∧ List.IsPrefix input (enhanceUserQuery input)
    ∧ (enhancements input).count "recipe ingredients".toList = 1
    ∧ countSubstr "recipe ingredients".toList (joinSpace (enhancements input)) = 1 := by
  have hsh : enhancements input
      = "recipe ingredients".toList ::
        ((if (timeWords.any fun w => isSubstr w (lowerStr input)) then ["cooking time".toList] else [])
          ++ (if (dietaryWords.any fun w => isSubstr w (lowerStr input)) then ["dietary".toList] else [])
          ++ (if (cuisineWords.any fun w => isSubstr w (lowerStr input)) then ["cuisine".toList] else [])) := by
    unfold enhancements
    dsimp only
    rw [h]
    rfl
  have heq : enhanceUserQuery input = input ++ ' ' :: joinSpace (enhancements input) := by
    unfold enhanceUserQuery
    rw [hsh]
    rfl
  refine ⟨heq, ?_, ?_⟩
  · rw [heq]
    exact ⟨' ' :: joinSpace (enhancements input), rfl⟩
  · rcases ht : (timeWords.any fun w => isSubstr w (lowerStr input)) with _ | _ <;>
      rcases hd : (dietaryWords.any fun w => isSubstr w (lowerStr input)) with _ | _ <;>
      rcases hc : (cuisineWords.any fun w => isSubstr w (lowerStr input)) with _ | _ <;>
      rw [ht, hd, hc] at hsh <;> rw [hsh] <;> exact ⟨by decide, by decide⟩

/-- C7: if evaluating the filters for one recipe raises (for example a
servings value whose first token is not an integer), the recipe defaults to
pass and is treated as included, and the error does not abort the
processing of the remaining recipes in the batch. -/
theorem claim_C7 (r : ParsedRecipe) (fl : List Str) (ct : Int)
    (herr : applyFiltersCore r fl ct = .error ()) :
    applyFilters r (some fl) ct = true
    ∧ (∀ (d : Str) (m : SearchMeta) (rest : List (Str × SearchMeta))
          (card : RecipeCard) (cards : List RecipeCard),
        parseRecipeDocument d = r →
        mkCard m (some fl) r = .ok card →
        searchLoop rest (some fl) ct = .ok cards →
        searchLoop ((d, m) :: rest) (some fl) ct = .ok (card :: cards)) := by
  have hpass : applyFilters r (some fl) ct = true := by
    unfold applyFilters
    dsimp only
    rw [herr]
    split <;> rfl
  refine ⟨hpass, ?_⟩
  intro d m rest card cards hpd hcard hrest
  unfold searchLoop
  dsimp only
  rw [hpd, hpass, hcard, hrest]
  rfl

/-- Witness for C7 at a concrete input: the filter body raises on the
servings token "abc", yet the recipe passes the filters and its card is
produced while the (empty) rest of the batch is still processed. -/
theorem claim_C7_witness :
    applyFiltersCore (parseRecipeDocument docAbc) ["servings-1-2".toList] 30 = .error ()
    ∧ applyFilters (parseRecipeDocument docAbc) (some ["servings-1-2".toList]) 30 = true
    ∧ searchLoop [(docAbc, metaAbc)] (some ["servings-1-2".toList]) 30 = .ok [cardAbc] :=
  ⟨rfl,
   (claim_C7 (parseRecipeDocument docAbc) ["servings-1-2".toList] 30 rfl).1,
   (claim_C7 (parseRecipeDocument docAbc) ["servings-1-2".toList] 30 rfl).2
     docAbc metaAbc [] cardAbc [] rfl rfl rfl⟩

set_option maxRecDepth 10000 in
/-- C2 concerns a code bug: `_apply_filters` contains a cooking-time check
(`int(recipe_info['cooking_time']) > cooking_time`), but
`_parse_recipe_document` never writes a `cooking_time` key, so the check can
never fire and no recipe is ever excluded by cooking time. Concretely, the
stew document stating a 60-minute cooking time is returned by the filtered
search with `cookingTimeLimit = 30`. -/
theorem claim_C2 :
    (∀ doc, (parseRecipeDocument doc).cooking_time = none)
    ∧ (searchRecipes [(doc60, meta60)] (some ["non-veg".toList]) 30).map RecipeCard.name
        = ["Beef Stew".toList] :=
  ⟨parse_cooking_time_none, rfl⟩

/-- C9: the `type` field of every returned recipe card is determined solely
by whether "veg" is an element of the requested filters list: every card of
every run with these filters carries the label fixed by the filters, so two
runs over different stored documents assign identical labels, and all cards
in one result set carry the same label. -/
theorem claim_C9 (fl : List Str) (ct : Int) :
    (∀ pairs c, c ∈ searchRecipes pairs (some fl) ct →
      c.type = (if fl.contains "veg".toList then "Vegetarian".toList
                else "Non-Vegetarian".toList))
    ∧ (∀ pairs₁ pairs₂ c₁ c₂, c₁ ∈ searchRecipes pairs₁ (some fl) ct →
        c₂ ∈ searchRecipes pairs₂ (some fl) ct → c₁.type = c₂.type) := by
  have h1 : ∀ pairs c, c ∈ searchRecipes pairs (some fl) ct →
      c.type = (if fl.contains "veg".toList then "Vegetarian".toList
                else "Non-Vegetarian".toList) := by
    intro pairs c hc
    obtain ⟨cards, hloop, hmem⟩ := searchRecipes_mem pairs (some fl) ct c hc
    exact searchLoop_type_label fl ct pairs cards hloop c hmem
  exact ⟨h1, fun p₁ p₂ c₁ c₂ m₁ m₂ => (h1 p₁ c₁ m₁).trans (h1 p₂ c₂ m₂).symm⟩

set_option maxRecDepth 10000 in
/-- Witness for C9 at concrete inputs: two searches with the same (empty)
filter list over different stored documents both label their cards
"Non-Vegetarian", and the two labels agree. -/
theorem claim_C9_witness :
    (card60 ∈ searchRecipes [(doc60, meta60)] (some []) 30)
    ∧ (cardAbc ∈ searchRecipes [(docAbc, metaAbc)] (some []) 30)
    ∧ card60.type = (if ([] : List Str).contains "veg".toList then "Vegetarian".toList
                     else "Non-Vegetarian".toList)
    ∧ card60.type = cardAbc.type := by
  have m1 : card60 ∈ searchRecipes [(doc60, meta60)] (some []) 30 := by
    have e : searchRecipes [(doc60, meta60)] (some []) 30 = [card60] := rfl
    rw [e]
    exact List.mem_singleton.mpr rfl
  have m2 : cardAbc ∈ searchRecipes [(docAbc, metaAbc)] (some []) 30 := by
    have e : searchRecipes [(docAbc, metaAbc)] (some []) 30 = [cardAbc] := rfl
    rw [e]
    exact List.mem_singleton.mpr rfl
  exact ⟨m1, m2, (claim_C9 [] 30).1 [(doc60, meta60)] card60 m1,
    (claim_C9 [] 30).2 [(doc60, meta60)] [(docAbc, metaAbc)] card60 cardAbc m1 m2⟩

/-- C3: the user-facing entry points never raise. `get_response` maps every
failed chain invocation and every failed source-processing step to the
apologetic well-formed response (empty recipes and sources, the error detail
in the diagnostic field), always returns a 3-element (hence non-empty)
suggestion list, and `search_recipes` maps every raised error inside its
loop to the empty result list. In the embedding both entry points are total
functions, so no exception can propagate. -/
theorem claim_C3 :
    (∀ (chainO : ChainOracle) (descO : DescOracle) (input e : Str),
        (pyStrip input).isEmpty = false →
        chainO (enhanceUserQuery input) = .error e →
        getResponse chainO descO input = errorResponse e)
    ∧ (∀ (chainO : ChainOracle) (descO : DescOracle) (input : Str),
        (getResponse chainO descO input).suggestions.length = 3)
    ∧ (∀ (chainO : ChainOracle) (descO : DescOracle) (input : Str) (result : ChatResult),
        (pyStrip input).isEmpty = false →
        chainO (enhanceUserQuery input) = .ok result →
        processSources result.source_documents = .error () →
        getResponse chainO descO input = errorResponse sourcesErrorMsg)
    ∧ (∀ (pairs : List (Str × SearchMeta)) (fl : Option (List Str)) (ct : Int) (e : Unit),
        searchLoop pairs fl ct = .error e → searchRecipes pairs fl ct = []) := by
  refine ⟨?_, getResponse_suggestions_three, ?_, ?_⟩
  · intro chainO descO input e hws hch
    unfold getResponse
    rw [hws]
    unfold getResponseTry
    rw [hch]
    rfl
  · intro chainO descO input result hws hch hps
    unfold getResponse
    rw [hws]
    unfold getResponseTry
    rw [hch]
    dsimp only
    rw [hps]
    rfl
  · intro pairs fl ct e h
    unfold searchRecipes
    rw [h]

/-- Witness for C3 at concrete inputs: a chain oracle that always raises
yields the apologetic response with the raised message in the diagnostic
field, and a search batch whose card construction raises (metadata without
a `name` key) yields the empty result list. -/
theorem claim_C3_witness :
    ((pyStrip "hello".toList).isEmpty = false
      ∧ failingChain (enhanceUserQuery "hello".toList) = .error "boom".toList
      ∧ getResponse failingChain failingDesc "hello".toList = errorResponse "boom".toList)
    ∧ (searchLoop [("doc".toList, ({} : SearchMeta))] (some []) 30 = .error ()
      ∧ searchRecipes [("doc".toList, ({} : SearchMeta))] (some []) 30 = []) :=
  ⟨⟨rfl, rfl, claim_C3.1 failingChain failingDesc "hello".toList "boom".toList rfl rfl⟩,
   ⟨rfl, claim_C3.2.2.2 [("doc".toList, ({} : SearchMeta))] (some []) 30 () rfl⟩⟩

/-- C8: for every empty or whitespace-only input, `get_response` returns the
fixed greeting response (fixed answer text, the fixed three-item suggestion
list, empty recipes and sources, null error), and the result is independent
of the retrieval/generation oracles — no retrieval is performed. -/
theorem claim_C8 (chainO : ChainOracle) (descO : DescOracle) (input : Str)
    (h : (pyStrip input).isEmpty = true) :
    getResponse chainO descO input = greetingResponse
    ∧ (∀ (chainO₂ : ChainOracle) (descO₂ : DescOracle),
        getResponse chainO descO input = getResponse chainO₂ descO₂ input) := by
  have hg : ∀ (a : ChainOracle) (b : DescOracle), getResponse a b input = greetingResponse := by
    intro a b
    unfold getResponse
    rw [h]
    rfl
  exact ⟨hg chainO descO, fun c d => (hg chainO descO).trans (hg c d).symm⟩

/-- Witness for C8 at a concrete whitespace input, with oracles that would
raise if they were ever consulted. -/
theorem claim_C8_witness :
    (pyStrip "  \t ".toList).isEmpty = true
    ∧ getResponse failingChain failingDesc "  \t ".toList = greetingResponse :=
  ⟨rfl, (claim_C8 failingChain failingDesc "  \t ".toList rfl).1⟩

/-- Witness for C6 (amended) at a concrete input with two ingredient-intent
words ("using" and "have") and no other signal. -/
theorem claim_C6_witness :
    (ingredientWords.any
      (fun w => isSubstr w (lowerStr "what can i make using what i have".toList))) = true
    ∧ (enhanceUserQuery "what can i make using what i have".toList
        = "what can i make using what i have".toList
          ++ ' ' :: joinSpace (enhancements "what can i make using what i have".toList)
      ∧ List.IsPrefix "what can i make using what i have".toList
          (enhanceUserQuery "what can i make using what i have".toList)
      ∧ (enhancements "what can i make using what i have".toList).count
          "recipe ingredients".toList = 1
      ∧ countSubstr "recipe ingredients".toList
          (joinSpace (enhancements "what can i make using what i have".toList)) = 1) :=
  ⟨by decide, claim_C6 "what can i make using what i have".toList (by decide)⟩

end KHRIV
